import Mathlib

/-!
Verification of the CCD Visualizer Report Builder (src/app.py).

The builder lives in two functions of app.py: read_excel_contents
(decode the uploaded data URL, parse the spreadsheet, select and rename
the template columns) and update_output (numeric coercion, Highest_Star,
Percentage, the data table and the two chart datasets).  This file embeds
those functions over an explicit cell grid.  Library calls whose
behaviour the source relies on (str.split, base64.b64decode,
pd.read_excel, pd.to_numeric, np.max over a pandas row,
Series.value_counts().sort_index()) are embedded according to their
documented semantics; the spreadsheet file format itself is external, so
the bytes-to-grid parser is a parameter of the build.
-/

/-- A spreadsheet cell: a numeric value, a text value, or an empty cell.
Numbers are modelled as exact rationals. -/
inductive Cell where
  | num (q : Rat)
  | str (s : String)
  | empty
deriving Repr, DecidableEq, Inhabited

/-- A raw sheet: the grid of cells of the uploaded worksheet, row major,
in source order, before any row is skipped. -/
abbrev Grid := List (List Cell)

/-- The three failure kinds of the build named by the spec. -/
inductive BuildError where
  | decodeError
  | parseError
  | schemaError
deriving Repr, DecidableEq

/-- Value of a base64 alphabet character, none for everything else. -/
def b64charVal (c : Char) : Option Nat :=
  if 'A' ≤ c ∧ c ≤ 'Z' then some (c.toNat - 65)
  else if 'a' ≤ c ∧ c ≤ 'z' then some (c.toNat - 97 + 26)
  else if '0' ≤ c ∧ c ≤ '9' then some (c.toNat - 48 + 52)
  else if c = '+' then some 62
  else if c = '/' then some 63
  else none

/-- Decode a run of 6-bit values into bytes, three bytes per quadruple;
a trailing pair or triple contributes one or two bytes. -/
def decodeQuads : List Nat → List Nat
  | a :: b :: c :: d :: rest =>
      (a * 4 + b / 16) :: ((b % 16) * 16 + c / 4) :: ((c % 4) * 64 + d) :: decodeQuads rest
  | [a, b] => [a * 4 + b / 16]
  | [a, b, c] => [a * 4 + b / 16, (b % 16) * 16 + c / 4]
  | _ => []

/-- Modelled from base64.b64decode as called by the source (no validate
flag): characters outside the base64 alphabet are discarded, padding may
only close the string, and the count of retained characters must be a
multiple of four, otherwise the call raises. -/
def b64decode (s : List Char) : Option (List Nat) :=
  let kept := s.filter (fun c => (b64charVal c).isSome || c = '=')
  let body := kept.takeWhile (fun c => c ≠ '=')
  let pads := kept.drop body.length
  if pads.all (fun c => c = '=') ∧ pads.length ≤ 2 ∧ (body.length + pads.length) % 4 = 0 then
    some (decodeQuads (body.filterMap b64charVal))
  else none

/-- Modelled from Python str.split with a comma separator, as used on the
uploaded contents string. -/
def splitOnComma : List Char → List (List Char)
  | [] => [[]]
  | c :: rest =>
    if c = ',' then [] :: splitOnComma rest
    else
      match splitOnComma rest with
      | [] => [[c]]
      | g :: gs => (c :: g) :: gs

/-- The transport payload of an uploaded contents string: defined exactly
when the string splits at commas into two halves whose second half
base64-decodes. -/
def decodedPayload (contents : List Char) : Option (List Nat) :=
  match splitOnComma contents with
  | [_, content_string] => b64decode content_string
  | _ => none

/-- The dataframe produced by reading the sheet: a column count and the
data rows, each padded to that count. -/
structure Frame where
  ncols : Nat
  rows : List (List Cell)
deriving Repr, DecidableEq

/-- Widest row of a collection of rows. -/
def sheetWidth (rows : List (List Cell)) : Nat :=
  rows.foldr (fun r acc => max r.length acc) 0

/-- Pad a row with empty cells up to the frame width. -/
def padRow (w : Nat) (r : List Cell) : List Cell :=
  r ++ List.replicate (w - r.length) Cell.empty

/-- Modelled from pd.read_excel(..., skiprows=8) with the default header
row: the first 8 sheet rows are dropped, the next row supplies the column
labels and is consumed, the remaining rows are the data.  The frame is as
wide as its widest remaining row, shorter rows reading as missing. -/
def read_excel (grid : Grid) : Frame :=
  match grid.drop 8 with
  | [] => { ncols := 0, rows := [] }
  | header :: dataRows =>
    let w := sheetWidth (header :: dataRows)
    { ncols := w, rows := dataRows.map (padRow w) }

/-- Modelled from DataFrame.iloc positional column selection, df.iloc[:,
columns_to_keep] in the source: every index must lie below the column
count, otherwise an IndexError is raised, which is the schema failure of
the spec. -/
def selectColumns (f : Frame) (cols : List Nat) : Except BuildError (List (List Cell)) :=
  if cols.all (fun i => i < f.ncols) then
    Except.ok (f.rows.map (fun r => cols.map (fun i => r.getD i Cell.empty)))
  else Except.error BuildError.schemaError

/-- Largest column index of a template. -/
def maxIndex (cols : List Nat) : Nat := cols.foldr max 0

/-- The fifteen output column names assigned positionally in
read_excel_contents. -/
def fixedColumnNames : List String :=
  ["Index", "Roll no", "Names",
   "WEEK1", "1", "WEEK2", "2", "WEEK3", "3",
   "WEEK4", "4", "WEEK5", "5", "WEEK6", "6"]

/-- Embeds read_excel_contents of app.py: split the data URL at the
comma into content type and payload, base64-decode the payload, read the
bytes as a spreadsheet with 8 rows skipped, select the template columns.
The positional renaming to fixedColumnNames is reflected by the named
fields of StudentRecord below.  A failed two-way split or a failed
base64 decode is the DecodeError stage, an unreadable spreadsheet the
ParseError stage, a missing column the SchemaError stage.  The
bytes-to-grid parser is external to the program and passed in. -/
def read_excel_contents (parse : List Nat → Option Grid) (contents : List Char)
    (columns_to_keep : List Nat) : Except BuildError (List (List Cell)) :=
  match splitOnComma contents with
  | [_, content_string] =>
    match b64decode content_string with
    | none => Except.error BuildError.decodeError
    | some decoded =>
      match parse decoded with
      | none => Except.error BuildError.parseError
      | some grid => selectColumns (read_excel grid) columns_to_keep
  | _ => Except.error BuildError.decodeError

/-- Numeric value of a run of decimal digit characters. -/
def digitsToNat (ds : List Char) : Nat :=
  ds.foldl (fun acc c => acc * 10 + (c.toNat - 48)) 0

/-- Modelled from the Python float parsing used by pd.to_numeric on
strings: optional surrounding spaces, an optional sign, then decimal
digits with an optional fractional part; at least one digit overall.
Scientific notation and the special float words are not modelled. -/
def parseDecimal (s : List Char) : Option Rat :=
  let t0 := ((s.dropWhile (fun c => c = ' ')).reverse.dropWhile (fun c => c = ' ')).reverse
  let signed : Int × List Char :=
    match t0 with
    | '-' :: rest => (-1, rest)
    | '+' :: rest => (1, rest)
    | _ => (1, t0)
  let sign := signed.1
  let t := signed.2
  let intPart := t.takeWhile Char.isDigit
  let rest := t.drop intPart.length
  match rest with
  | [] =>
    if intPart = [] then none
    else some ((sign : Rat) * (digitsToNat intPart : Rat))
  | '.' :: fracChars =>
    if fracChars.all Char.isDigit ∧ (intPart ≠ [] ∨ fracChars ≠ []) then
      some ((sign : Rat) *
        ((digitsToNat intPart : Rat) + (digitsToNat fracChars : Rat) / ((10 : Rat) ^ fracChars.length)))
    else none
  | _ => none

/-- Modelled from pd.to_numeric with the coerce error policy, applied to
the six week columns: numbers pass through, strings are parsed
best-effort, anything unparsable or empty becomes missing.  No failure
is ever raised. -/
def to_numeric (c : Cell) : Option Rat :=
  match c with
  | Cell.num q => some q
  | Cell.str s => parseDecimal s.data
  | Cell.empty => none

/-- Modelled from df[numeric_columns].apply(np.max, axis=1): np.max on a
pandas row delegates to Series.max, which skips missing entries; a row
with no defined entry yields a missing maximum. -/
def highest_star (ws : List (Option Rat)) : Option Rat :=
  match ws.filterMap id with
  | [] => none
  | x :: xs => some (xs.foldl max x)

/-- Round a rational to the nearest integer, ties to even, as Python
string formatting rounds. -/
def roundHalfEven (q : Rat) : Int :=
  let f := q.floor
  let frac := q - (f : Rat)
  if frac < 1 / 2 then f
  else if 1 / 2 < frac then f + 1
  else if f % 2 = 0 then f else f + 1

/-- Render a natural below 100 with two digits. -/
def twoDigits (n : Nat) : String :=
  if n < 10 then "0" ++ toString n else toString n

/-- Modelled from the Python fixed-point format with two decimal places
used for the Percentage column. -/
def formatTwoDecimals (x : Rat) : String :=
  let n : Int := roundHalfEven (x * 100)
  let sign := if x < 0 then "-" else ""
  let m := n.natAbs
  sign ++ toString (m / 100) ++ "." ++ twoDigits (m % 100)

/-- Embeds the Percentage computation of update_output: a missing
Highest_Star gives the empty string, a defined one gives the value over
5, times 100, formatted to two decimals, with a percent sign. -/
def percentageOf (hs : Option Rat) : String :=
  match hs with
  | none => ""
  | some v => formatTwoDecimals (v / 5 * 100) ++ "%"

/-- One row of the shaped table: the fifteen renamed columns (the six
score columns already coerced to numbers) and the two derived fields. -/
structure StudentRecord where
  index : Cell
  rollNo : Cell
  names : Cell
  week1 : Cell
  score1 : Option Rat
  week2 : Cell
  score2 : Option Rat
  week3 : Cell
  score3 : Option Rat
  week4 : Cell
  score4 : Option Rat
  week5 : Cell
  score5 : Option Rat
  week6 : Cell
  score6 : Option Rat
  highestStar : Option Rat
  percentage : String
deriving Repr, DecidableEq, Inhabited

/-- The six coerced week scores of a record, in week order. -/
def scoreList (r : StudentRecord) : List (Option Rat) :=
  [r.score1, r.score2, r.score3, r.score4, r.score5, r.score6]

/-- The week score of a record at a zero-based week position. -/
def scoreAt (k : Nat) (r : StudentRecord) : Option Rat :=
  (scoreList r).getD k none

/-- Shape one selected row into a StudentRecord, following update_output:
the even positions 0..3 and the week label positions keep their cells,
the six score positions are coerced with to_numeric, then Highest_Star
and Percentage are derived. -/
def mkRecord (row : List Cell) : StudentRecord :=
  let s1 := to_numeric (row.getD 4 Cell.empty)
  let s2 := to_numeric (row.getD 6 Cell.empty)
  let s3 := to_numeric (row.getD 8 Cell.empty)
  let s4 := to_numeric (row.getD 10 Cell.empty)
  let s5 := to_numeric (row.getD 12 Cell.empty)
  let s6 := to_numeric (row.getD 14 Cell.empty)
  let hs := highest_star [s1, s2, s3, s4, s5, s6]
  { index := row.getD 0 Cell.empty
    rollNo := row.getD 1 Cell.empty
    names := row.getD 2 Cell.empty
    week1 := row.getD 3 Cell.empty
    score1 := s1
    week2 := row.getD 5 Cell.empty
    score2 := s2
    week3 := row.getD 7 Cell.empty
    score3 := s3
    week4 := row.getD 9 Cell.empty
    score4 := s4
    week5 := row.getD 11 Cell.empty
    score5 := s5
    week6 := row.getD 13 Cell.empty
    score6 := s6
    highestStar := hs
    percentage := percentageOf hs }

/-- Insert a rational into a list keeping ascending order. -/
def insertRat (v : Rat) : List Rat → List Rat
  | [] => [v]
  | x :: xs => if v ≤ x then v :: x :: xs else x :: insertRat v xs

/-- Sort a list of rationals ascending by insertion. -/
def sortRats (l : List Rat) : List Rat := l.foldr insertRat []

/-- Modelled from Series.value_counts().sort_index() on the Highest_Star
column: missing values are dropped, the distinct values appear in
ascending order, each with its number of occurrences. -/
def value_counts_sorted (l : List (Option Rat)) : List (Rat × Nat) :=
  let defined := l.filterMap id
  (sortRats defined.dedup).map (fun v => (v, defined.count v))

/-- The pie chart label of one star group, following the f-string of the
source: count, the words, then the star value. -/
def starLabel (p : Rat × Nat) : String :=
  toString p.2 ++ " students = " ++ toString p.1 ++ " stars"

/-- One bar chart series: the x axis of names and the y axis of scores. -/
structure WeekSeries where
  x : List Cell
  y : List (Option Rat)
deriving Repr, DecidableEq

/-- The three outputs of a successful build: the data table (its column
names and its records) and the two chart datasets. -/
structure Output where
  tableColumns : List String
  tableRecords : List StudentRecord
  barSeries : List WeekSeries
  pieLabels : List String
  pieValues : List Nat
deriving Repr, DecidableEq, Inhabited

/-- Embeds the output construction of update_output from the selected
rows: the records in source order, the table columns (the fifteen fixed
names plus the two derived columns), the six bar series each skipping
the first two rows, and the pie groups of Highest_Star counts. -/
def buildOutput (rows : List (List Cell)) : Output :=
  let records := rows.map mkRecord
  let names := records.map (fun r => r.names)
  let starPairs := value_counts_sorted (records.map (fun r => r.highestStar))
  { tableColumns := fixedColumnNames ++ ["Highest_Star", "Percentage"]
    tableRecords := records
    barSeries :=
      [ { x := names.drop 2, y := (records.map (fun r => r.score1)).drop 2 }
      , { x := names.drop 2, y := (records.map (fun r => r.score2)).drop 2 }
      , { x := names.drop 2, y := (records.map (fun r => r.score3)).drop 2 }
      , { x := names.drop 2, y := (records.map (fun r => r.score4)).drop 2 }
      , { x := names.drop 2, y := (records.map (fun r => r.score5)).drop 2 }
      , { x := names.drop 2, y := (records.map (fun r => r.score6)).drop 2 } ]
    pieLabels := starPairs.map starLabel
    pieValues := starPairs.map (fun p => p.2) }

/-- What a callback invocation renders: the fixed empty placeholder
triple for a missing upload, or a built report. -/
inductive Rendered where
  | placeholder
  | report (out : Output)
deriving Repr, DecidableEq

/-- Embeds update_output of app.py: a missing upload returns the fixed
placeholder without touching the contents; otherwise the contents are
read and the three outputs built, any stage failure aborting the
invocation with its error. -/
def update_output (parse : List Nat → Option Grid) (contents : Option (List Char))
    (columns_to_keep : List Nat) : Except BuildError Rendered :=
  match contents with
  | none => Except.ok Rendered.placeholder
  | some c =>
    match read_excel_contents parse c columns_to_keep with
    | Except.error e => Except.error e
    | Except.ok rows => Except.ok (Rendered.report (buildOutput rows))

/-- The column template of the first report variant, from
update_tab_contents. -/
def columns_to_keep_page1 : List Nat :=
  [0, 1, 2, 6, 13, 16, 23, 26, 33, 36, 43, 46, 53, 56, 63]

/-- The column template of the second report variant, from
update_tab_contents. -/
def columns_to_keep_page2 : List Nat :=
  [0, 1, 2, 6, 15, 18, 27, 30, 39, 42, 51, 54, 63, 66, 75]

/-- Embeds one arm of the loop of update_tab_contents: a missing upload
or a missing active tab renders the placeholder, otherwise the report
for that page's template. -/
def tabEntry (parse : List Nat → Option Grid) (contents : Option (List Char))
    (activeTab : Option String) (cols : List Nat) : Except BuildError Rendered :=
  match contents, activeTab with
  | none, _ => Except.ok Rendered.placeholder
  | some _, none => Except.ok Rendered.placeholder
  | some c, some _ => update_output parse (some c) cols

/-- Embeds update_tab_contents of app.py: both pages rendered with their
fixed templates. -/
def update_tab_contents (parse : List Nat → Option Grid)
    (c1 c2 : Option (List Char)) (activeTab : Option String) :
    Except BuildError Rendered × Except BuildError Rendered :=
  (tabEntry parse c1 activeTab columns_to_keep_page1,
   tabEntry parse c2 activeTab columns_to_keep_page2)

/-- A sample data row: Alice, with scores 2, 7, an unparsable text score,
an empty score, 0 and 1. -/
def demoRowA : List Cell :=
  [Cell.str "1", Cell.str "101", Cell.str "Alice", Cell.str "W1", Cell.num 2,
   Cell.str "W2", Cell.num 7, Cell.str "W3", Cell.str "abc", Cell.str "W4",
   Cell.empty, Cell.str "W5", Cell.num 0, Cell.str "W6", Cell.num 1]

/-- A sample data row: Bob, with all scores defined and within 0..5. -/
def demoRowB : List Cell :=
  [Cell.str "2", Cell.str "102", Cell.str "Bob", Cell.str "W1", Cell.num 3,
   Cell.str "W2", Cell.num 4, Cell.str "W3", Cell.num 5, Cell.str "W4",
   Cell.num 0, Cell.str "W5", Cell.num 1, Cell.str "W6", Cell.num 2]

/-- A sample sheet: 8 skipped rows, one header row, two data rows. -/
def demoGridA : Grid :=
  List.replicate 8 ([] : List Cell) ++
  [List.replicate 15 (Cell.str "h"), demoRowA, demoRowB]

/-- A parser that reads any byte stream as the sample sheet. -/
def demoParseA : List Nat → Option Grid := fun _ => some demoGridA

/-- A 15-column identity template for the sample sheet. -/
def cols15 : List Nat := [0, 1, 2, 3, 4, 5, 6, 7, 8, 9, 10, 11, 12, 13, 14]

/-- A sample upload: a one-character content type and the base64 payload
QUJD, which decodes to the bytes 65 66 67. -/
def demoContents : List Char := ['m', ',', 'Q', 'U', 'J', 'D']

/-- A sample upload whose payload QQ has an invalid base64 length. -/
def demoBadContents : List Char := ['m', ',', 'Q', 'Q']

/-- The report built from the sample upload. -/
def demoOutA : Output :=
  match update_output demoParseA (some demoContents) cols15 with
  | Except.ok (Rendered.report o) => o
  | _ => default

/-- The first record of the sample report (Alice). -/
def demoRecA : StudentRecord := demoOutA.tableRecords.getD 0 default

/-- The second record of the sample report (Bob). -/
def demoRecB : StudentRecord := demoOutA.tableRecords.getD 1 default

theorem foldl_max_mem (x : Rat) (xs : List Rat) : xs.foldl max x ∈ x :: xs := by
  induction xs generalizing x with
  | nil => simp
  | cons a t ih =>
    simp only [List.foldl_cons]
    rcases List.mem_cons.mp (ih (max x a)) with h | h
    · rw [h]
      rcases max_choice x a with hm | hm <;> rw [hm]
      · exact List.mem_cons_self _ _
      · exact List.mem_cons.mpr (Or.inr (List.mem_cons_self _ _))
    · exact List.mem_cons.mpr (Or.inr (List.mem_cons.mpr (Or.inr h)))

theorem le_foldl_max (x : Rat) (xs : List Rat) : ∀ y ∈ x :: xs, y ≤ xs.foldl max x := by
  induction xs generalizing x with
  | nil =>
    intro y hy
    simp at hy
    simp [hy]
  | cons a t ih =>
    intro y hy
    simp only [List.foldl_cons]
    rcases List.mem_cons.mp hy with rfl | hy2
    · exact le_trans (le_max_left y a) (ih (max y a) _ (List.mem_cons_self _ _))
    · rcases List.mem_cons.mp hy2 with rfl | hy3
      · exact le_trans (le_max_right x y) (ih (max x y) _ (List.mem_cons_self _ _))
      · exact ih (max x a) y (List.mem_cons.mpr (Or.inr hy3))

theorem highest_star_none_iff (ws : List (Option Rat)) :
    highest_star ws = none ↔ ws.filterMap id = [] := by
  unfold highest_star
  cases hf : ws.filterMap id <;> simp

theorem highest_star_some (ws : List (Option Rat)) (v : Rat)
    (hv : highest_star ws = some v) :
    v ∈ ws.filterMap id ∧ ∀ x ∈ ws.filterMap id, x ≤ v := by
  unfold highest_star at hv
  cases hf : ws.filterMap id with
  | nil => rw [hf] at hv; exact absurd hv (by simp)
  | cons x xs =>
    rw [hf] at hv
    simp only [Option.some.injEq] at hv
    subst hv
    exact ⟨foldl_max_mem x xs, le_foldl_max x xs⟩

theorem mkRecord_highestStar (row : List Cell) :
    (mkRecord row).highestStar = highest_star (scoreList (mkRecord row)) := rfl

theorem mkRecord_percentage (row : List Cell) :
    (mkRecord row).percentage = percentageOf ((mkRecord row).highestStar) := rfl

theorem update_output_some_eq (parse : List Nat → Option Grid) (c : List Char)
    (cols : List Nat) :
    update_output parse (some c) cols =
      match read_excel_contents parse c cols with
      | Except.error e => Except.error e
      | Except.ok rows => Except.ok (Rendered.report (buildOutput rows)) := rfl

theorem update_output_ok_report (parse : List Nat → Option Grid) (c : List Char)
    (cols : List Nat) (out : Output)
    (h : update_output parse (some c) cols = Except.ok (Rendered.report out)) :
    ∃ rows, read_excel_contents parse c cols = Except.ok rows ∧ out = buildOutput rows := by
  rw [update_output_some_eq] at h
  cases hr : read_excel_contents parse c cols with
  | error e => rw [hr] at h; exact absurd h (by simp)
  | ok rows =>
    rw [hr] at h
    simp only [Except.ok.injEq, Rendered.report.injEq] at h
    exact ⟨rows, rfl, h.symm⟩

theorem mem_buildOutput_tableRecords (rows : List (List Cell)) (r : StudentRecord)
    (h : r ∈ (buildOutput rows).tableRecords) : ∃ row ∈ rows, r = mkRecord row := by
  unfold buildOutput at h
  simp only [List.mem_map] at h
  obtain ⟨row, hrow, hr⟩ := h
  exact ⟨row, hrow, hr.symm⟩

theorem insertRat_perm (v : Rat) (l : List Rat) : List.Perm (insertRat v l) (v :: l) := by
  induction l with
  | nil => simp [insertRat]
  | cons x xs ih =>
    unfold insertRat
    by_cases h : v ≤ x
    · simp [h]
    · simp only [if_neg h]
      exact (ih.cons x).trans (List.Perm.swap v x xs)

theorem insertRat_pairwise (v : Rat) (l : List Rat) (h : l.Pairwise (· ≤ ·)) :
    (insertRat v l).Pairwise (· ≤ ·) := by
  induction l with
  | nil => simp [insertRat]
  | cons x xs ih =>
    rcases List.pairwise_cons.mp h with ⟨hx, hxs⟩
    unfold insertRat
    by_cases hv : v ≤ x
    · simp only [if_pos hv]
      refine List.pairwise_cons.mpr ⟨?_, h⟩
      intro b hb
      rcases List.mem_cons.mp hb with rfl | hb2
      · exact hv
      · exact hv.trans (hx b hb2)
    · simp only [if_neg hv]
      refine List.pairwise_cons.mpr ⟨?_, ih hxs⟩
      intro b hb
      rcases List.mem_cons.mp ((insertRat_perm v xs).mem_iff.mp hb) with rfl | hb2
      · exact (not_le.mp hv).le
      · exact hx b hb2

theorem sortRats_perm (l : List Rat) : List.Perm (sortRats l) l := by
  induction l with
  | nil => rfl
  | cons x xs ih => exact (insertRat_perm x (sortRats xs)).trans (ih.cons x)

theorem sortRats_pairwise (l : List Rat) : (sortRats l).Pairwise (· ≤ ·) := by
  induction l with
  | nil => simp [sortRats]
  | cons x xs ih => exact insertRat_pairwise x (sortRats xs) ih

theorem filterMap_id_cons_congr (a : Option Rat) (l₁ l₂ : List (Option Rat))
    (h : l₁.filterMap id = l₂.filterMap id) :
    (a :: l₁).filterMap id = (a :: l₂).filterMap id := by
  cases a <;> simp [List.filterMap_cons, h]

theorem highest_star_congr (l₁ l₂ : List (Option Rat))
    (h : l₁.filterMap id = l₂.filterMap id) : highest_star l₁ = highest_star l₂ := by
  unfold highest_star
  rw [h]

theorem all_lt_iff_maxIndex_lt (cols : List Nat) (h : cols ≠ []) (n : Nat) :
    (cols.all (fun i => i < n) = true) ↔ maxIndex cols < n := by
  induction cols with
  | nil => exact absurd rfl h
  | cons c cs ih =>
    cases hcs : cs with
    | nil => simp [maxIndex]
    | cons d ds =>
      rw [← hcs]
      have hne : cs ≠ [] := by rw [hcs]; exact List.cons_ne_nil d ds
      have : maxIndex (c :: cs) = max c (maxIndex cs) := rfl
      rw [this, Nat.max_lt]
      simp only [List.all_cons, Bool.and_eq_true, decide_eq_true_eq]
      rw [ih hne]

theorem splitOnComma_ne_nil (l : List Char) : splitOnComma l ≠ [] := by
  induction l with
  | nil => simp [splitOnComma]
  | cons c rest ih =>
    unfold splitOnComma
    by_cases h : c = ','
    · simp [h]
    · simp only [if_neg h]
      cases hr : splitOnComma rest with
      | nil => simp
      | cons g gs => simp

theorem splitOnComma_append (p s : List Char) (h : ¬ ',' ∈ p) :
    splitOnComma (p ++ ',' :: s) = p :: splitOnComma s := by
  induction p with
  | nil => simp [splitOnComma]
  | cons c cs ih =>
    have hc : c ≠ ',' := fun hh => h (hh ▸ List.mem_cons_self c cs)
    have hcs : ¬ ',' ∈ cs := fun hh => h (List.mem_cons.mpr (Or.inr hh))
    simp only [List.cons_append]
    conv_lhs => rw [splitOnComma]
    rw [if_neg hc, ih hcs]

theorem read_excel_rows_length (grid : Grid) :
    (read_excel grid).rows.length = grid.length - 9 := by
  unfold read_excel
  have hlen : (grid.drop 8).length = grid.length - 8 := List.length_drop 8 grid
  cases hd : grid.drop 8 with
  | nil =>
    rw [hd] at hlen
    simp only [List.length_nil] at hlen
    simp
    omega
  | cons header dataRows =>
    rw [hd] at hlen
    simp only [List.length_cons] at hlen
    simp only [List.length_map]
    omega

theorem value_counts_sorted_stars (l : List (Option Rat)) :
    (value_counts_sorted l).map (fun p => p.1) = sortRats (l.filterMap id).dedup := by
  unfold value_counts_sorted
  rw [List.map_map]
  exact List.map_id _

theorem value_counts_sorted_lt (l : List (Option Rat)) :
    ((value_counts_sorted l).map (fun p => p.1)).Pairwise (· < ·) := by
  rw [value_counts_sorted_stars]
  have hs : (sortRats (l.filterMap id).dedup).Pairwise (· ≤ ·) := sortRats_pairwise _
  have hn : (sortRats (l.filterMap id).dedup).Nodup :=
    (sortRats_perm _).nodup_iff.mpr (List.nodup_dedup _)
  exact List.Sorted.lt_of_le hs hn

theorem value_counts_sorted_mem (l : List (Option Rat)) (v : Rat) :
    v ∈ (value_counts_sorted l).map (fun p => p.1) ↔ v ∈ l.filterMap id := by
  rw [value_counts_sorted_stars, (sortRats_perm _).mem_iff, List.mem_dedup]

theorem value_counts_sorted_counts (l : List (Option Rat)) (p : Rat × Nat)
    (hp : p ∈ value_counts_sorted l) : p.2 = (l.filterMap id).count p.1 := by
  unfold value_counts_sorted at hp
  simp only [List.mem_map] at hp
  obtain ⟨v, hv, hpv⟩ := hp
  rw [← hpv]

theorem value_counts_sorted_sum (l : List (Option Rat)) :
    ((value_counts_sorted l).map (fun p => p.2)).sum = (l.filterMap id).length := by
  unfold value_counts_sorted
  rw [List.map_map]
  have h1 : ((fun p : Rat × Nat => p.2) ∘ fun v => (v, (l.filterMap id).count v)) =
      fun v => (l.filterMap id).count v := rfl
  rw [h1]
  have hperm := (sortRats_perm (l.filterMap id).dedup).map
    (fun v => (l.filterMap id).count v)
  rw [hperm.sum_eq]
  exact List.sum_map_count_dedup_eq_length _

theorem demoOutA_tableRecords : demoOutA.tableRecords = [demoRecA, demoRecB] := rfl

theorem demoOutA_run :
    update_output demoParseA (some demoContents) cols15 =
      Except.ok (Rendered.report demoOutA) := rfl

theorem demoRecA_mem : demoRecA ∈ demoOutA.tableRecords := by
  rw [demoOutA_tableRecords]
  exact List.mem_cons_self _ _

theorem demoRecB_mem : demoRecB ∈ demoOutA.tableRecords := by
  rw [demoOutA_tableRecords]
  exact List.mem_cons.mpr (Or.inr (List.mem_cons_self _ _))

/-- C1 For every record produced by the Report Builder, Highest_Star is
the maximum of the six numeric week fields with missing entries ignored:
it is missing exactly when all six coerced scores are missing, and
otherwise it is one of the defined scores and bounds all of them. -/
theorem C1_highestStar_is_max (parse : List Nat → Option Grid) (contents : List Char)
    (cols : List Nat) (out : Output)
    (h : update_output parse (some contents) cols = Except.ok (Rendered.report out)) :
    ∀ r ∈ out.tableRecords,
      (r.highestStar = none ↔ (scoreList r).filterMap id = []) ∧
      ∀ v, r.highestStar = some v →
        v ∈ (scoreList r).filterMap id ∧ ∀ x ∈ (scoreList r).filterMap id, x ≤ v := by
  intro r hr
  obtain ⟨rows, hrows, hout⟩ := update_output_ok_report parse contents cols out h
  subst hout
  obtain ⟨row, hrow, hr2⟩ := mem_buildOutput_tableRecords rows r hr
  subst hr2
  rw [mkRecord_highestStar]
  exact ⟨highest_star_none_iff _, fun v hv => highest_star_some _ v hv⟩

/-- C1 witness at the sample upload: the first record's highest star 7
is among its defined scores. -/
theorem C1_witness : (7 : Rat) ∈ (scoreList demoRecA).filterMap id :=
  ((C1_highestStar_is_max demoParseA demoContents cols15 demoOutA demoOutA_run
      demoRecA demoRecA_mem).2 7 rfl).1

/-- C2 is refuted as stated: the sample upload is a valid upload, yet the
first record's Highest_Star is 7, outside the closed interval 0..5. -/
theorem C2_counterexample :
    update_output demoParseA (some demoContents) cols15 =
      Except.ok (Rendered.report demoOutA) ∧
    demoRecA ∈ demoOutA.tableRecords ∧
    demoRecA.highestStar = some 7 ∧ ¬ ((7 : Rat) ≤ 5) :=
  ⟨rfl, demoRecA_mem, rfl, by decide⟩

/-- C2 (amended) For every record of a valid upload whose defined week
scores all lie within 0..5, Highest_Star is either missing or a value
within 0..5; the code itself never bounds the scores. -/
theorem C2_highestStar_range (parse : List Nat → Option Grid) (contents : List Char)
    (cols : List Nat) (out : Output)
    (h : update_output parse (some contents) cols = Except.ok (Rendered.report out)) :
    ∀ r ∈ out.tableRecords,
      (∀ x ∈ (scoreList r).filterMap id, 0 ≤ x ∧ x ≤ 5) →
      ∀ v, r.highestStar = some v → 0 ≤ v ∧ v ≤ 5 := by
  intro r hr hbound v hv
  obtain ⟨rows, hrows, hout⟩ := update_output_ok_report parse contents cols out h
  subst hout
  obtain ⟨row, hrow, hr2⟩ := mem_buildOutput_tableRecords rows r hr
  subst hr2
  rw [mkRecord_highestStar] at hv
  exact hbound v (highest_star_some _ v hv).1

/-- C2 witness at the sample upload: the second record has all scores
within 0..5 and its highest star 5 satisfies the bounds. -/
theorem C2_witness : (0 : Rat) ≤ 5 ∧ (5 : Rat) ≤ 5 :=
  C2_highestStar_range demoParseA demoContents cols15 demoOutA demoOutA_run
    demoRecB demoRecB_mem (by decide) 5 rfl

/-- C3 For every record, Percentage is the empty string when Highest_Star
is missing, and otherwise Highest_Star over 5, times 100, formatted to two
decimal places with a percent sign appended; hence Percentage is always
empty or ends in a percent sign. -/
theorem C3_percentage (parse : List Nat → Option Grid) (contents : List Char)
    (cols : List Nat) (out : Output)
    (h : update_output parse (some contents) cols = Except.ok (Rendered.report out)) :
    ∀ r ∈ out.tableRecords,
      (r.highestStar = none → r.percentage = "") ∧
      (∀ v, r.highestStar = some v →
        r.percentage = formatTwoDecimals (v / 5 * 100) ++ "%") ∧
      (r.percentage = "" ∨ ∃ t, r.percentage = t ++ "%") := by
  intro r hr
  obtain ⟨rows, hrows, hout⟩ := update_output_ok_report parse contents cols out h
  subst hout
  obtain ⟨row, hrow, hr2⟩ := mem_buildOutput_tableRecords rows r hr
  subst hr2
  rw [mkRecord_percentage]
  cases hv : (mkRecord row).highestStar with
  | none => simp [percentageOf]
  | some v =>
    refine ⟨by simp, ?_, Or.inr ⟨formatTwoDecimals (v / 5 * 100), rfl⟩⟩
    intro w hw
    obtain rfl : v = w := by injection hw
    rfl

/-- C3 witness at the sample upload: the first record's Percentage is 140
percent formatted to two decimals. -/
theorem C3_witness : demoRecA.percentage = formatTwoDecimals ((7 : Rat) / 5 * 100) ++ "%" :=
  (C3_percentage demoParseA demoContents cols15 demoOutA demoOutA_run
      demoRecA demoRecA_mem).2.1 7 rfl

theorem read_excel_contents_eq (parse : List Nat → Option Grid) (contents : List Char)
    (cols : List Nat) :
    read_excel_contents parse contents cols =
      match decodedPayload contents with
      | none => Except.error BuildError.decodeError
      | some bs =>
        match parse bs with
        | none => Except.error BuildError.parseError
        | some grid => selectColumns (read_excel grid) cols := by
  unfold read_excel_contents decodedPayload
  cases splitOnComma contents with
  | nil => rfl
  | cons a t =>
    cases t with
    | nil => rfl
    | cons b t2 =>
      cases t2 with
      | nil => cases b64decode b <;> rfl
      | cons c t3 => rfl

/-- C4 For every valid upload, the pie chart groups the records by
Highest_Star with the undefined rows excluded: the labels and values come
from the counted groups, the star values are strictly ascending, a star
value appears exactly when some record attains it, each count is the
number of records with that Highest_Star, and the counts sum to the
number of records with a defined Highest_Star. -/
theorem C4_star_counts (parse : List Nat → Option Grid) (contents : List Char)
    (cols : List Nat) (out : Output)
    (h : update_output parse (some contents) cols = Except.ok (Rendered.report out)) :
    out.pieLabels =
      (value_counts_sorted (out.tableRecords.map (fun r => r.highestStar))).map starLabel ∧
    out.pieValues =
      (value_counts_sorted (out.tableRecords.map (fun r => r.highestStar))).map (fun p => p.2) ∧
    ((value_counts_sorted (out.tableRecords.map (fun r => r.highestStar))).map
        (fun p => p.1)).Pairwise (· < ·) ∧
    (∀ v : Rat,
      v ∈ (value_counts_sorted (out.tableRecords.map (fun r => r.highestStar))).map
            (fun p => p.1) ↔
      v ∈ (out.tableRecords.map (fun r => r.highestStar)).filterMap id) ∧
    (∀ p ∈ value_counts_sorted (out.tableRecords.map (fun r => r.highestStar)),
      p.2 = ((out.tableRecords.map (fun r => r.highestStar)).filterMap id).count p.1) ∧
    ((value_counts_sorted (out.tableRecords.map (fun r => r.highestStar))).map
        (fun p => p.2)).sum =
      ((out.tableRecords.map (fun r => r.highestStar)).filterMap id).length := by
  obtain ⟨rows, hrows, hout⟩ := update_output_ok_report parse contents cols out h
  subst hout
  exact ⟨rfl, rfl, value_counts_sorted_lt _, fun v => value_counts_sorted_mem _ v,
    fun p hp => value_counts_sorted_counts _ p hp, value_counts_sorted_sum _⟩

/-- C4 witness at the sample upload: the group counts sum to the number
of records with a defined Highest_Star. -/
theorem C4_witness :
    ((value_counts_sorted (demoOutA.tableRecords.map (fun r => r.highestStar))).map
        (fun p => p.2)).sum =
      ((demoOutA.tableRecords.map (fun r => r.highestStar)).filterMap id).length :=
  (C4_star_counts demoParseA demoContents cols15 demoOutA demoOutA_run).2.2.2.2.2

/-- C5 For every valid upload, the bar chart data consists of six series
in week order, each pairing the record names with that week's scores,
both with the first two rows removed, while the table keeps every
selected row in source order. -/
theorem C5_weekly_series (parse : List Nat → Option Grid) (contents : List Char)
    (cols : List Nat) (out : Output)
    (h : update_output parse (some contents) cols = Except.ok (Rendered.report out)) :
    out.barSeries =
      [ { x := (out.tableRecords.map (fun r => r.names)).drop 2
        , y := (out.tableRecords.map (fun r => r.score1)).drop 2 }
      , { x := (out.tableRecords.map (fun r => r.names)).drop 2
        , y := (out.tableRecords.map (fun r => r.score2)).drop 2 }
      , { x := (out.tableRecords.map (fun r => r.names)).drop 2
        , y := (out.tableRecords.map (fun r => r.score3)).drop 2 }
      , { x := (out.tableRecords.map (fun r => r.names)).drop 2
        , y := (out.tableRecords.map (fun r => r.score4)).drop 2 }
      , { x := (out.tableRecords.map (fun r => r.names)).drop 2
        , y := (out.tableRecords.map (fun r => r.score5)).drop 2 }
      , { x := (out.tableRecords.map (fun r => r.names)).drop 2
        , y := (out.tableRecords.map (fun r => r.score6)).drop 2 } ] ∧
    ∀ rows2, read_excel_contents parse contents cols = Except.ok rows2 →
      out.tableRecords = rows2.map mkRecord := by
  obtain ⟨rows, hrows, hout⟩ := update_output_ok_report parse contents cols out h
  subst hout
  refine ⟨rfl, ?_⟩
  intro rows2 h2
  rw [hrows] at h2
  obtain rfl : rows = rows2 := by injection h2
  rfl

/-- C5 witness at the sample upload: there are exactly six bar series. -/
theorem C5_witness : demoOutA.barSeries.length = 6 := by
  rw [(C5_weekly_series demoParseA demoContents cols15 demoOutA demoOutA_run).1]
  rfl

/-- C6 is refuted as stated: the sample sheet has 11 rows, so 3 rows
remain after discarding the first 8, but the table built from it has 2
records, because the spreadsheet parse also consumes one header row after
the skip. -/
theorem C6_counterexample :
    demoGridA.length = 11 ∧
    update_output demoParseA (some demoContents) cols15 =
      Except.ok (Rendered.report demoOutA) ∧
    demoOutA.tableRecords.length = 2 ∧
    demoGridA.length - 8 = 3 ∧ (2 : Nat) ≠ 3 :=
  ⟨rfl, rfl, rfl, rfl, by decide⟩

/-- C6 (amended) For every valid upload, the record count equals the
sheet row count minus 9, the 8 skipped rows plus the header row the parse
consumes; and the table columns are the fifteen fixed names in order,
followed by the two derived columns. -/
theorem C6_row_count_columns (parse : List Nat → Option Grid) (contents : List Char)
    (cols : List Nat) (out : Output) (bs : List Nat) (grid : Grid)
    (hd : decodedPayload contents = some bs)
    (hp : parse bs = some grid)
    (h : update_output parse (some contents) cols = Except.ok (Rendered.report out)) :
    out.tableRecords.length = grid.length - 9 ∧
    out.tableColumns = fixedColumnNames ++ ["Highest_Star", "Percentage"] ∧
    out.tableColumns.take 15 = fixedColumnNames := by
  obtain ⟨rows, hrows, hout⟩ := update_output_ok_report parse contents cols out h
  subst hout
  simp only [read_excel_contents_eq, hd, hp] at hrows
  unfold selectColumns at hrows
  split at hrows
  · refine ⟨?_, rfl, rfl⟩
    simp only [Except.ok.injEq] at hrows
    subst hrows
    simp only [buildOutput, List.length_map]
    exact read_excel_rows_length grid
  · exact absurd hrows (by simp)

/-- C6 witness at the sample upload: 2 records from an 11-row sheet, and
the fixed column names. -/
theorem C6_witness :
    demoOutA.tableRecords.length = demoGridA.length - 9 ∧
    demoOutA.tableColumns = fixedColumnNames ++ ["Highest_Star", "Percentage"] ∧
    demoOutA.tableColumns.take 15 = fixedColumnNames :=
  C6_row_count_columns demoParseA demoContents cols15 demoOutA [65, 66, 67] demoGridA
    rfl rfl demoOutA_run

theorem filterMap_id_none (l : List (Option Rat)) :
    (none :: l).filterMap id = l.filterMap id := rfl

/-- C7 Unparsable week cells never fail the build: once the rows are
selected, the numeric stage always succeeds; an unparsable score cell
coerces to a missing score in its record, and that row's Highest_Star is
computed from the remaining week scores alone. -/
theorem C7_coercion :
    (∀ (parse : List Nat → Option Grid) (contents : List Char) (cols : List Nat) rows,
      read_excel_contents parse contents cols = Except.ok rows →
      update_output parse (some contents) cols =
        Except.ok (Rendered.report (buildOutput rows))) ∧
    (∀ (row : List Cell) (k : Nat), k < 6 →
      to_numeric (row.getD (4 + 2 * k) Cell.empty) = none →
      scoreAt k (mkRecord row) = none ∧
      (mkRecord row).highestStar =
        highest_star ((scoreList (mkRecord row)).eraseIdx k)) := by
  constructor
  · intro parse contents cols rows hrows
    rw [update_output_some_eq, hrows]
  · intro row k hk hnone
    interval_cases k
    · refine ⟨hnone, ?_⟩
      rw [mkRecord_highestStar]
      apply highest_star_congr
      have hs : (mkRecord row).score1 = none := hnone
      simp only [scoreList, List.eraseIdx_cons_zero, hs]
      exact filterMap_id_none _
    · refine ⟨hnone, ?_⟩
      rw [mkRecord_highestStar]
      apply highest_star_congr
      have hs : (mkRecord row).score2 = none := hnone
      simp only [scoreList, List.eraseIdx_cons_succ, List.eraseIdx_cons_zero, hs]
      exact filterMap_id_cons_congr _ _ _ (filterMap_id_none _)
    · refine ⟨hnone, ?_⟩
      rw [mkRecord_highestStar]
      apply highest_star_congr
      have hs : (mkRecord row).score3 = none := hnone
      simp only [scoreList, List.eraseIdx_cons_succ, List.eraseIdx_cons_zero, hs]
      exact filterMap_id_cons_congr _ _ _
        (filterMap_id_cons_congr _ _ _ (filterMap_id_none _))
    · refine ⟨hnone, ?_⟩
      rw [mkRecord_highestStar]
      apply highest_star_congr
      have hs : (mkRecord row).score4 = none := hnone
      simp only [scoreList, List.eraseIdx_cons_succ, List.eraseIdx_cons_zero, hs]
      exact filterMap_id_cons_congr _ _ _ (filterMap_id_cons_congr _ _ _
        (filterMap_id_cons_congr _ _ _ (filterMap_id_none _)))
    · refine ⟨hnone, ?_⟩
      rw [mkRecord_highestStar]
      apply highest_star_congr
      have hs : (mkRecord row).score5 = none := hnone
      simp only [scoreList, List.eraseIdx_cons_succ, List.eraseIdx_cons_zero, hs]
      exact filterMap_id_cons_congr _ _ _ (filterMap_id_cons_congr _ _ _
        (filterMap_id_cons_congr _ _ _ (filterMap_id_cons_congr _ _ _ (filterMap_id_none _))))
    · refine ⟨hnone, ?_⟩
      rw [mkRecord_highestStar]
      apply highest_star_congr
      have hs : (mkRecord row).score6 = none := hnone
      simp only [scoreList, List.eraseIdx_cons_succ, List.eraseIdx_cons_zero, hs]
      exact filterMap_id_cons_congr _ _ _ (filterMap_id_cons_congr _ _ _
        (filterMap_id_cons_congr _ _ _ (filterMap_id_cons_congr _ _ _
          (filterMap_id_cons_congr _ _ _ (filterMap_id_none _)))))

/-- C7 witness on the sample row whose third week cell holds unparsable
text: that score is missing and the highest star ignores it. -/
theorem C7_witness :
    scoreAt 2 (mkRecord demoRowA) = none ∧
    (mkRecord demoRowA).highestStar =
      highest_star ((scoreList (mkRecord demoRowA)).eraseIdx 2) :=
  C7_coercion.2 demoRowA 2 (by decide) rfl

/-- C8 The build fails with decodeError exactly when the transport
payload is not validly encoded, with parseError exactly when the decoded
bytes are not a readable spreadsheet, and with schemaError exactly when
the sheet lacks a column at the largest template index; every failure
produces no output at all. -/
theorem C8_error_classes (parse : List Nat → Option Grid) (contents : List Char)
    (cols : List Nat) (hne : cols ≠ []) :
    (update_output parse (some contents) cols = Except.error BuildError.decodeError ↔
      decodedPayload contents = none) ∧
    (update_output parse (some contents) cols = Except.error BuildError.parseError ↔
      ∃ bs, decodedPayload contents = some bs ∧ parse bs = none) ∧
    (update_output parse (some contents) cols = Except.error BuildError.schemaError ↔
      ∃ bs grid, decodedPayload contents = some bs ∧ parse bs = some grid ∧
        (read_excel grid).ncols ≤ maxIndex cols) ∧
    (∀ e r, update_output parse (some contents) cols = Except.error e →
      update_output parse (some contents) cols ≠ Except.ok r) := by
  cases hd : decodedPayload contents with
  | none =>
    have heq : update_output parse (some contents) cols =
        Except.error BuildError.decodeError := by
      simp only [update_output_some_eq, read_excel_contents_eq, hd]
    refine ⟨?_, ?_, ?_, ?_⟩
    · rw [heq]; simp
    · rw [heq]; simp
    · rw [heq]; simp
    · intro e r he; rw [heq]; simp
  | some bs =>
    cases hp : parse bs with
    | none =>
      have heq : update_output parse (some contents) cols =
          Except.error BuildError.parseError := by
        simp only [update_output_some_eq, read_excel_contents_eq, hd, hp]
      refine ⟨?_, ?_, ?_, ?_⟩
      · rw [heq]; simp
      · rw [heq]; simp [hp]
      · rw [heq]; simp [hp]
      · intro e r he; rw [heq]; simp
    | some grid =>
      by_cases hall : (cols.all (fun i => i < (read_excel grid).ncols)) = true
      · have hsel : selectColumns (read_excel grid) cols =
            Except.ok ((read_excel grid).rows.map
              (fun r => cols.map (fun i => r.getD i Cell.empty))) := by
          unfold selectColumns
          rw [if_pos hall]
        have heq : update_output parse (some contents) cols =
            Except.ok (Rendered.report (buildOutput
              ((read_excel grid).rows.map
                (fun r => cols.map (fun i => r.getD i Cell.empty))))) := by
          simp only [update_output_some_eq, read_excel_contents_eq, hd, hp, hsel]
        have hlt : maxIndex cols < (read_excel grid).ncols :=
          (all_lt_iff_maxIndex_lt cols hne _).mp hall
        refine ⟨?_, ?_, ?_, ?_⟩
        · rw [heq]; simp
        · rw [heq]; simp [hp]
        · rw [heq]
          constructor
          · intro hfalse; simp at hfalse
          · rintro ⟨bs2, grid2, hbs2, hg2, hle⟩
            obtain rfl : bs = bs2 := by injection hbs2
            rw [hp] at hg2
            obtain rfl : grid = grid2 := by injection hg2
            omega
        · intro e r he; rw [heq] at he; simp at he
      · have hsel : selectColumns (read_excel grid) cols =
            Except.error BuildError.schemaError := by
          unfold selectColumns
          rw [if_neg hall]
        have heq : update_output parse (some contents) cols =
            Except.error BuildError.schemaError := by
          simp only [update_output_some_eq, read_excel_contents_eq, hd, hp, hsel]
        have hle : (read_excel grid).ncols ≤ maxIndex cols := by
          have := (all_lt_iff_maxIndex_lt cols hne (read_excel grid).ncols).not.mp hall
          omega
        refine ⟨?_, ?_, ?_, ?_⟩
        · rw [heq]; simp
        · rw [heq]; simp [hp]
        · rw [heq]
          constructor
          · intro _; exact ⟨bs, grid, rfl, hp, hle⟩
          · intro _; rfl
        · intro e r he; rw [heq]; simp

/-- C8 witness: a payload with an invalid base64 length is classified as
a decode failure. -/
theorem C8_witness :
    update_output demoParseA (some demoBadContents) cols15 =
        Except.error BuildError.decodeError ↔
      decodedPayload demoBadContents = none :=
  (C8_error_classes demoParseA demoBadContents cols15 (by decide)).1

/-- C9 The build output is a deterministic function of the payload and
template: repeated builds agree, and two uploads whose halves after the
comma coincide build identically whatever their comma-free content-type
halves are. -/
theorem C9_payload_determines (parse : List Nat → Option Grid) (cols : List Nat)
    (pre1 pre2 payload : List Char) (h1 : ¬ ',' ∈ pre1) (h2 : ¬ ',' ∈ pre2) :
    update_output parse (some (pre1 ++ ',' :: payload)) cols =
      update_output parse (some (pre2 ++ ',' :: payload)) cols ∧
    ∀ contents : Option (List Char),
      update_output parse contents cols = update_output parse contents cols := by
  refine ⟨?_, fun _ => rfl⟩
  rw [update_output_some_eq, update_output_some_eq,
    read_excel_contents_eq, read_excel_contents_eq]
  have hd : decodedPayload (pre1 ++ ',' :: payload) =
      decodedPayload (pre2 ++ ',' :: payload) := by
    unfold decodedPayload
    rw [splitOnComma_append _ _ h1, splitOnComma_append _ _ h2]
    cases hsp : splitOnComma payload with
    | nil => rfl
    | cons q qs =>
      cases qs with
      | nil => rfl
      | cons q2 qs2 => rfl
  rw [hd]

/-- C9 witness: the same payload under two different content types
builds the same report. -/
theorem C9_witness :
    update_output demoParseA (some (['x'] ++ ',' :: ['Q', 'U', 'J', 'D'])) cols15 =
      update_output demoParseA (some (['d', 'a', 't', 'a'] ++ ',' :: ['Q', 'U', 'J', 'D'])) cols15 :=
  (C9_payload_determines demoParseA cols15 ['x'] ['d', 'a', 't', 'a'] ['Q', 'U', 'J', 'D']
    (by decide) (by decide)).1

/-- C10 A missing upload renders the fixed empty placeholder triple with
no error, for any parser and any template, so nothing is decoded or
parsed; the same holds for the first page of the tab callback. -/
theorem C10_no_contents_placeholder :
    (∀ (parse : List Nat → Option Grid) (cols : List Nat),
      update_output parse none cols = Except.ok Rendered.placeholder) ∧
    (∀ (parse : List Nat → Option Grid) (c2 : Option (List Char)) (tab : Option String),
      (update_tab_contents parse none c2 tab).1 = Except.ok Rendered.placeholder) := by
  constructor
  · intro parse cols
    rfl
  · intro parse c2 tab
    rfl
